import Mathlib

/-!
Shallow embedding of the kafka-partition-remapper-operator core logic:
the CRD data model, the spec validator, the status/phase computation,
the Deployment/Service builders' claim-relevant parts, the config
fingerprint, and the error policy, together with theorems settling the
specification claims.
-/

set_option maxRecDepth 4000

/-! ## CRD data model (src/crd/kafka_partition_remapper.rs)

Machine integers are modelled as `Nat` (u32/u64) and `Int` (i32/i64);
`BTreeMap<String, String>` is modelled as an association list
`List (String × String)` (real BTreeMaps have distinct, sorted keys).
-/

/-- Reference to TLS certificate secret. -/
structure TlsCertificateSecretRef where
  name : String
  cert_key : String
  key_key : String
deriving Repr, DecidableEq

/-- Simple secret reference. -/
structure SecretRef where
  name : String
  key : String
deriving Repr, DecidableEq

/-- TLS configuration for client-facing connections. -/
structure ClientTlsSpec where
  certificate_secret : TlsCertificateSecretRef
  client_ca_secret : Option SecretRef
  require_client_cert : Bool
deriving Repr, DecidableEq

/-- Credentials secret reference. -/
structure CredentialsSecretRef where
  name : String
deriving Repr, DecidableEq

/-- SASL authentication configuration for clients. -/
structure ClientSaslSpec where
  enabled_mechanisms : List String
  credentials_secret : CredentialsSecretRef
deriving Repr, DecidableEq

/-- Client-facing security configuration. -/
structure ClientSecuritySpec where
  protocol : String
  tls : Option ClientTlsSpec
  sasl : Option ClientSaslSpec
deriving Repr, DecidableEq

/-- TCP listener configuration for client connections (port is an i32). -/
structure ListenSpec where
  port : Int
  advertised_address : Option String
  max_connections : Nat
  security : Option ClientSecuritySpec
deriving Repr, DecidableEq

/-- TLS secret reference for broker connections. -/
structure TlsSecretRef where
  name : String
  ca_key : String
  cert_key : Option String
  key_key : Option String
  insecure_skip_verify : Bool
deriving Repr, DecidableEq

/-- SASL secret reference for broker connections. -/
structure SaslSecretRef where
  name : String
  mechanism : String
  username_key : String
  password_key : String
deriving Repr, DecidableEq

/-- Kafka cluster connection configuration. -/
structure KafkaClusterSpec where
  bootstrap_servers : List String
  connection_timeout_ms : Nat
  request_timeout_ms : Nat
  metadata_refresh_interval_secs : Nat
  security_protocol : String
  tls_secret : Option TlsSecretRef
  sasl_secret : Option SaslSecretRef
deriving Repr, DecidableEq

/-- Per-topic mapping override. -/
structure TopicMappingOverride where
  topic : String
  virtual_partitions : Option Nat
  physical_partitions : Option Nat
  offset_range : Option Nat
deriving Repr, DecidableEq

/-- Partition remapping configuration (u32 counts, u64 offset range). -/
structure MappingSpec where
  virtual_partitions : Nat
  physical_partitions : Nat
  offset_range : Nat
  topics : List TopicMappingOverride
deriving Repr, DecidableEq

/-- Metrics configuration. -/
structure MetricsSpec where
  enabled : Bool
  port : Int
deriving Repr, DecidableEq

/-- Logging configuration. -/
structure LoggingSpec where
  level : String
  json : Bool
deriving Repr, DecidableEq

/-- Kubernetes Service configuration from the CRD (field `type` in Rust). -/
structure ServiceSpec where
  type_ : String
  annotations : List (String × String)
  load_balancer_ip : Option String
  external_traffic_policy : Option String
deriving Repr, DecidableEq

/-- Toleration specification. -/
structure TolerationSpec where
  key : Option String
  operator : Option String
  value : Option String
  effect : Option String
  toleration_seconds : Option Int
deriving Repr, DecidableEq

/-- Resource requirements specification. -/
structure ResourceRequirementsSpec where
  limits : List (String × String)
  requests : List (String × String)
deriving Repr, DecidableEq

/-- Model of `serde_json::Value` for the free-form pass-through fields
(affinity, security context); numbers restricted to integers. -/
inductive Json where
  | null : Json
  | bool (b : Bool) : Json
  | num (n : Int) : Json
  | str (s : String) : Json
  | arr (l : List Json) : Json
  | obj (l : List (String × Json)) : Json
deriving Repr

/-- Pod template customizations. -/
structure PodTemplateSpec where
  annotations : List (String × String)
  labels : List (String × String)
  node_selector : List (String × String)
  tolerations : List TolerationSpec
  affinity : Option Json
  resources : Option ResourceRequirementsSpec
  image : Option String
  image_tag : Option String
  image_pull_policy : Option String
  image_pull_secrets : List String
  service_account_name : Option String
  security_context : Option Json
deriving Repr

/-- KafkaPartitionRemapper resource specification (replicas is an i32). -/
structure KafkaPartitionRemapperSpec where
  replicas : Int
  listen : ListenSpec
  kafka : KafkaClusterSpec
  mapping : MappingSpec
  metrics : MetricsSpec
  logging : LoggingSpec
  service : ServiceSpec
  pod_template : Option PodTemplateSpec
  suspend : Bool
deriving Repr

/-- The slice of `kube::core::ObjectMeta` the embedded code touches. -/
structure ObjectMeta where
  name : Option String
  namespace' : Option String
  uid : Option String
  generation : Option Int
deriving Repr, DecidableEq

/-- The custom resource: metadata plus spec. -/
structure KafkaPartitionRemapper where
  metadata : ObjectMeta
  spec : KafkaPartitionRemapperSpec
deriving Repr

/-! ## Error type (src/error.rs) and error policy
(src/controllers/remapper_controller.rs) -/

mutual

/-- Operator error type; `FinalizerError` wraps a
`kube::runtime::finalizer::Error<Error>`. -/
inductive Error where
  | KubeError (msg : String) : Error
  | ConfigError (msg : String) : Error
  | ValidationError (msg : String) : Error
  | SecretError (msg : String) : Error
  | FinalizerError (inner : FinalizerErr) : Error

/-- Model of `kube::runtime::finalizer::Error<Error>`. -/
inductive FinalizerErr where
  | applyFailed (e : Error) : FinalizerErr
  | cleanupFailed (e : Error) : FinalizerErr
  | addFinalizerFailed (msg : String) : FinalizerErr
  | removeFinalizerFailed (msg : String) : FinalizerErr
  | unnamedObject : FinalizerErr
  | invalidFinalizer : FinalizerErr

end

/-- `error_policy`: requeue delay in seconds chosen for a reconcile error. -/
def error_policy : Error → Nat
  | .KubeError _ => 30
  | .ConfigError _ | .ValidationError _ => 300
  | _ => 60

/-! ## Spec validator (src/reconcilers/remapper.rs, `validate`) -/

/-- The ordered first-failure-wins checks of `validate`, over the spec
(`let spec = &remapper.spec` in the Rust body).  Rust `u32::is_multiple_of`
is `v % p == 0` (which at `p = 0` holds exactly when `v = 0`, as in Rust,
since Lean defines `v % 0 = v`). -/
def validateSpec (spec : KafkaPartitionRemapperSpec) : Except Error Unit :=
  if spec.kafka.bootstrap_servers = [] then
    .error (.ValidationError "kafka.bootstrapServers cannot be empty")
  else if spec.mapping.physical_partitions = 0 then
    .error (.ValidationError "mapping.physicalPartitions must be >= 1")
  else if spec.mapping.virtual_partitions < spec.mapping.physical_partitions then
    .error (.ValidationError "mapping.virtualPartitions must be >= mapping.physicalPartitions")
  else if ¬ (spec.mapping.virtual_partitions % spec.mapping.physical_partitions = 0) then
    .error (.ValidationError
      "mapping.virtualPartitions must be evenly divisible by mapping.physicalPartitions")
  else if spec.mapping.offset_range < 1048576 then
    .error (.ValidationError "mapping.offsetRange must be >= 1048576 (2^20)")
  else if spec.replicas < 0 then
    .error (.ValidationError "replicas must be >= 0")
  else if ¬ (spec.kafka.security_protocol ∈ ["PLAINTEXT", "SSL", "SASL_PLAINTEXT", "SASL_SSL"]) then
    .error (.ValidationError
      "kafka.securityProtocol must be one of: [\"PLAINTEXT\", \"SSL\", \"SASL_PLAINTEXT\", \"SASL_SSL\"]")
  else if (spec.kafka.security_protocol = "SSL" ∨ spec.kafka.security_protocol = "SASL_SSL")
      ∧ spec.kafka.tls_secret = none then
    .error (.ValidationError "kafka.tlsSecret is required when using SSL or SASL_SSL protocol")
  else if (spec.kafka.security_protocol = "SASL_PLAINTEXT"
      ∨ spec.kafka.security_protocol = "SASL_SSL")
      ∧ spec.kafka.sasl_secret = none then
    .error (.ValidationError
      "kafka.saslSecret is required when using SASL_PLAINTEXT or SASL_SSL protocol")
  else
    .ok ()

/-- `validate` on the resource, as called by the controller. -/
def validate (remapper : KafkaPartitionRemapper) : Except Error Unit :=
  validateSpec remapper.spec

/-! ## Status computation (src/reconcilers/remapper.rs, `update_status`) -/

/-- Phase derivation inside `update_status`; `ready_replicas` is the i32
observed from the Deployment status (0 when absent). -/
def statusPhase (spec : KafkaPartitionRemapperSpec) (ready_replicas : Int) : String :=
  if spec.suspend then "Suspended"
  else if ready_replicas = spec.replicas then "Running"
  else if ready_replicas > 0 then "Degraded"
  else "Pending"

/-- The pure fields of the status `update_status` computes from the spec and
the observed ready count (the Rust function reads no previous status). -/
structure StatusFields where
  phase : String
  compression_ratio : Nat
deriving Repr, DecidableEq

/-- The spec-derived part of the status patch built by `update_status`:
phase and `compression_ratio = virtual_partitions / physical_partitions`
(u32 integer division). -/
def update_status_fields (spec : KafkaPartitionRemapperSpec)
    (ready_replicas : Int) : StatusFields :=
  { phase := statusPhase spec ready_replicas,
    compression_ratio := spec.mapping.virtual_partitions / spec.mapping.physical_partitions }

/-! ## Annotation / label maps

`BTreeMap<String, String>::insert` on the association-list model: replace an
existing binding in place, otherwise append. -/

/-- Insert a key/value pair into an association-list map, replacing an
existing binding for the key. -/
def insertAnn (m : List (String × String)) (k v : String) : List (String × String) :=
  match m with
  | [] => [(k, v)]
  | (k', v') :: rest => if k' = k then (k, v) :: rest else (k', v') :: insertAnn rest k v

/-- Look a key up in an association-list map. -/
def lookupAnn (m : List (String × String)) (k : String) : Option String :=
  match m with
  | [] => none
  | (k', v') :: rest => if k' = k then some v' else lookupAnn rest k

/-! ## Deployment builder (src/adapters/deployment_builder.rs) -/

/-- The slice of `k8s_openapi ObjectMeta` the builders populate. -/
structure K8sObjectMeta where
  name : Option String
  namespace' : Option String
  labels : Option (List (String × String))
  annotations : Option (List (String × String))
deriving Repr, DecidableEq

/-- Pod template of a Deployment; the container-level pod spec
(`build_pod_spec`) is elided: no claim concerns it. -/
structure K8sPodTemplateSpec where
  metadata : Option K8sObjectMeta
deriving Repr, DecidableEq

/-- The slice of `k8s_openapi DeploymentSpec` the builder populates. -/
structure K8sDeploymentSpec where
  replicas : Option Int
  match_labels : Option (List (String × String))
  template : K8sPodTemplateSpec
deriving Repr, DecidableEq

/-- A Kubernetes Deployment manifest (claim-relevant slice). -/
structure K8sDeployment where
  metadata : K8sObjectMeta
  spec : Option K8sDeploymentSpec
deriving Repr, DecidableEq

/-- `build_labels`: the common label set. -/
def build_labels (name : String) : List (String × String) :=
  insertAnn (insertAnn (insertAnn [] "app.kubernetes.io/name" "kafka-partition-remapper")
    "app.kubernetes.io/instance" name)
    "app.kubernetes.io/managed-by" "kafka-partition-remapper-operator"

/-- `build_deployment`: pod annotations start from `checksum/config ↦ hash`
and then merge user pod-template annotations over it; desired replicas are 0
when suspended, else the declared replica count. -/
def build_deployment (remapper : KafkaPartitionRemapper)
    (_config_map_name config_hash : String) : K8sDeployment :=
  let name := remapper.metadata.name.getD ""
  let ns := remapper.metadata.namespace'.getD ""
  let spec := remapper.spec
  let labels := build_labels name
  let base := insertAnn [] "checksum/config" config_hash
  let pod_annotations :=
    match spec.pod_template with
    | some pt => pt.annotations.foldl (fun m kv => insertAnn m kv.1 kv.2) base
    | none => base
  let replicas : Int := if spec.suspend then 0 else spec.replicas
  { metadata := { name := some name, namespace' := some ns,
                  labels := some labels, annotations := none },
    spec := some { replicas := some replicas,
                   match_labels := some labels,
                   template := { metadata := some { name := none, namespace' := none,
                                                    labels := some labels,
                                                    annotations := some pod_annotations } } } }

/-! ## Service builder (src/adapters/service_builder.rs) -/

/-- One `status.loadBalancer.ingress` entry. -/
structure LoadBalancerIngress where
  ip : Option String
  hostname : Option String
deriving Repr, DecidableEq

/-- `status.loadBalancer` of a Service. -/
structure LoadBalancerStatus where
  ingress : Option (List LoadBalancerIngress)
deriving Repr, DecidableEq

/-- Status of a Service. -/
structure K8sServiceStatus where
  load_balancer : Option LoadBalancerStatus
deriving Repr, DecidableEq

/-- The slice of `k8s_openapi ServiceSpec` that `get_service_endpoint`
reads (the Rust `type_` field). -/
structure K8sServiceSpec where
  type_ : Option String
deriving Repr, DecidableEq

/-- An observed Kubernetes Service (claim-relevant slice). -/
structure K8sService where
  metadata : K8sObjectMeta
  spec : Option K8sServiceSpec
  status : Option K8sServiceStatus
deriving Repr, DecidableEq

/-- The cluster-internal DNS endpoint
`<name>.<namespace>.svc.cluster.local:<port>`. -/
def clusterDns (name ns : String) (port : Int) : String :=
  name ++ "." ++ ns ++ ".svc.cluster.local:" ++ toString port

/-- `get_service_endpoint`: resolve the advertised address from an observed
Service; `None` when name, namespace or spec is missing.  The Rust `match`
on the service-type string is rendered as the equivalent equality chain. -/
def get_service_endpoint (service : K8sService)
    (spec : KafkaPartitionRemapperSpec) : Option String :=
  match service.metadata.name, service.metadata.namespace', service.spec with
  | some name, some ns, some service_spec =>
    let port := spec.listen.port
    let service_type := service_spec.type_.getD "ClusterIP"
    if service_type = "LoadBalancer" then
      match service.status with
      | some status =>
        match status.load_balancer with
        | some lb =>
          match lb.ingress with
          | some ingress =>
            match ingress.head? with
            | some first =>
              match first.ip with
              | some ip => some (ip ++ ":" ++ toString port)
              | none =>
                match first.hostname with
                | some hostname => some (hostname ++ ":" ++ toString port)
                | none => some (clusterDns name ns port)
            | none => some (clusterDns name ns port)
          | none => some (clusterDns name ns port)
        | none => some (clusterDns name ns port)
      | none => some (clusterDns name ns port)
    else if service_type = "NodePort" then
      some (clusterDns name ns port)
    else
      some (clusterDns name ns port)
  | _, _, _ => none

/-- The first `status.loadBalancer.ingress` entry of a Service, when any. -/
def firstIngress (service : K8sService) : Option LoadBalancerIngress :=
  (((service.status.bind fun st => st.load_balancer).bind
    fun lb => lb.ingress).bind List.head?)

/-! ## Canonical spec serialization (serde_json::to_string of the spec)

Compact JSON in serde field order, camelCase keys, honouring the
`skip_serializing_if` annotations of the CRD types. -/

/-- Opening brace of a JSON object. -/
def lbrace : String := "\x7b"

/-- Closing brace of a JSON object. -/
def rbrace : String := "\x7d"

/-- Escape one character for a JSON string literal. -/
def jsonEscapeChar (c : Char) : String :=
  if c = '"' then "\\\""
  else if c = '\\' then "\\\\"
  else if c = '\n' then "\\n"
  else if c = '\r' then "\\r"
  else if c = '\t' then "\\t"
  else String.singleton c

/-- Escape a whole string for a JSON string literal. -/
def jsonEscape (s : String) : String :=
  s.data.foldl (fun acc c => acc ++ jsonEscapeChar c) ""

/-- Render a JSON string literal. -/
def jstr (s : String) : String := "\"" ++ jsonEscape s ++ "\""

/-- Render a JSON natural number. -/
def jnat (n : Nat) : String := toString n

/-- Render a JSON integer. -/
def jint (i : Int) : String := toString i

/-- Render a JSON boolean. -/
def jbool (b : Bool) : String := if b then "true" else "false"

/-- Render a JSON array from already-rendered elements. -/
def jarr (l : List String) : String := "[" ++ String.intercalate "," l ++ "]"

/-- Render a JSON object from key / rendered-value pairs. -/
def jobj (fields : List (String × String)) : String :=
  lbrace ++ String.intercalate "," (fields.map fun f => jstr f.1 ++ ":" ++ f.2) ++ rbrace

/-- A field present only when the option is set. -/
def optField {α : Type} (key : String) (f : α → String) : Option α → List (String × String)
  | some x => [(key, f x)]
  | none => []

mutual

/-- Render a `serde_json::Value` model term. -/
def Json.render : Json → String
  | .null => "null"
  | .bool b => jbool b
  | .num n => jint n
  | .str s => jstr s
  | .arr l => "[" ++ Json.renderList l ++ "]"
  | .obj l => lbrace ++ Json.renderObj l ++ rbrace

/-- Render the comma-separated elements of a JSON array. -/
def Json.renderList : List Json → String
  | [] => ""
  | [x] => Json.render x
  | x :: y :: xs => Json.render x ++ "," ++ Json.renderList (y :: xs)

/-- Render the comma-separated members of a JSON object. -/
def Json.renderObj : List (String × Json) → String
  | [] => ""
  | [kv] => jstr kv.1 ++ ":" ++ Json.render kv.2
  | kv :: kv' :: xs => jstr kv.1 ++ ":" ++ Json.render kv.2 ++ "," ++ Json.renderObj (kv' :: xs)

end

/-- Render a list of strings as a JSON array. -/
def serStringList (l : List String) : String := jarr (l.map jstr)

/-- Render a string-to-string map as a JSON object. -/
def serStrMap (m : List (String × String)) : String :=
  jobj (m.map fun kv => (kv.1, jstr kv.2))

/-- Serialize a `TlsCertificateSecretRef`. -/
def serTlsCertificateSecretRef (r : TlsCertificateSecretRef) : String :=
  jobj [("name", jstr r.name), ("certKey", jstr r.cert_key), ("keyKey", jstr r.key_key)]

/-- Serialize a `SecretRef`. -/
def serSecretRef (r : SecretRef) : String :=
  jobj [("name", jstr r.name), ("key", jstr r.key)]

/-- Serialize a `ClientTlsSpec`. -/
def serClientTlsSpec (t : ClientTlsSpec) : String :=
  jobj ([("certificateSecret", serTlsCertificateSecretRef t.certificate_secret)]
    ++ optField "clientCaSecret" serSecretRef t.client_ca_secret
    ++ [("requireClientCert", jbool t.require_client_cert)])

/-- Serialize a `CredentialsSecretRef`. -/
def serCredentialsSecretRef (c : CredentialsSecretRef) : String :=
  jobj [("name", jstr c.name)]

/-- Serialize a `ClientSaslSpec`. -/
def serClientSaslSpec (s : ClientSaslSpec) : String :=
  jobj [("enabledMechanisms", serStringList s.enabled_mechanisms),
        ("credentialsSecret", serCredentialsSecretRef s.credentials_secret)]

/-- Serialize a `ClientSecuritySpec`. -/
def serClientSecuritySpec (s : ClientSecuritySpec) : String :=
  jobj ([("protocol", jstr s.protocol)]
    ++ optField "tls" serClientTlsSpec s.tls
    ++ optField "sasl" serClientSaslSpec s.sasl)

/-- Serialize a `ListenSpec`. -/
def serListenSpec (l : ListenSpec) : String :=
  jobj ([("port", jint l.port)]
    ++ optField "advertisedAddress" jstr l.advertised_address
    ++ [("maxConnections", jnat l.max_connections)]
    ++ optField "security" serClientSecuritySpec l.security)

/-- Serialize a `TlsSecretRef`. -/
def serTlsSecretRef (t : TlsSecretRef) : String :=
  jobj ([("name", jstr t.name), ("caKey", jstr t.ca_key)]
    ++ optField "certKey" jstr t.cert_key
    ++ optField "keyKey" jstr t.key_key
    ++ [("insecureSkipVerify", jbool t.insecure_skip_verify)])

/-- Serialize a `SaslSecretRef`. -/
def serSaslSecretRef (t : SaslSecretRef) : String :=
  jobj [("name", jstr t.name), ("mechanism", jstr t.mechanism),
        ("usernameKey", jstr t.username_key), ("passwordKey", jstr t.password_key)]

/-- Serialize a `KafkaClusterSpec`. -/
def serKafkaClusterSpec (k : KafkaClusterSpec) : String :=
  jobj ([("bootstrapServers", serStringList k.bootstrap_servers),
         ("connectionTimeoutMs", jnat k.connection_timeout_ms),
         ("requestTimeoutMs", jnat k.request_timeout_ms),
         ("metadataRefreshIntervalSecs", jnat k.metadata_refresh_interval_secs),
         ("securityProtocol", jstr k.security_protocol)]
    ++ optField "tlsSecret" serTlsSecretRef k.tls_secret
    ++ optField "saslSecret" serSaslSecretRef k.sasl_secret)

/-- Serialize a `TopicMappingOverride`. -/
def serTopicMappingOverride (t : TopicMappingOverride) : String :=
  jobj ([("topic", jstr t.topic)]
    ++ optField "virtualPartitions" jnat t.virtual_partitions
    ++ optField "physicalPartitions" jnat t.physical_partitions
    ++ optField "offsetRange" jnat t.offset_range)

/-- Serialize a `MappingSpec` (topics skipped when empty). -/
def serMappingSpec (m : MappingSpec) : String :=
  jobj ([("virtualPartitions", jnat m.virtual_partitions),
         ("physicalPartitions", jnat m.physical_partitions),
         ("offsetRange", jnat m.offset_range)]
    ++ (if m.topics = [] then []
        else [("topics", jarr (m.topics.map serTopicMappingOverride))]))

/-- Serialize a `MetricsSpec`. -/
def serMetricsSpec (m : MetricsSpec) : String :=
  jobj [("enabled", jbool m.enabled), ("port", jint m.port)]

/-- Serialize a `LoggingSpec`. -/
def serLoggingSpec (l : LoggingSpec) : String :=
  jobj [("level", jstr l.level), ("json", jbool l.json)]

/-- Serialize the CRD `ServiceSpec` (annotations skipped when empty). -/
def serServiceSpec (s : ServiceSpec) : String :=
  jobj ([("type", jstr s.type_)]
    ++ (if s.annotations = [] then [] else [("annotations", serStrMap s.annotations)])
    ++ optField "loadBalancerIp" jstr s.load_balancer_ip
    ++ optField "externalTrafficPolicy" jstr s.external_traffic_policy)

/-- Serialize a `TolerationSpec`. -/
def serTolerationSpec (t : TolerationSpec) : String :=
  jobj (optField "key" jstr t.key
    ++ optField "operator" jstr t.operator
    ++ optField "value" jstr t.value
    ++ optField "effect" jstr t.effect
    ++ optField "tolerationSeconds" jint t.toleration_seconds)

/-- Serialize a `ResourceRequirementsSpec`. -/
def serResourceRequirementsSpec (r : ResourceRequirementsSpec) : String :=
  jobj ((if r.limits = [] then [] else [("limits", serStrMap r.limits)])
    ++ (if r.requests = [] then [] else [("requests", serStrMap r.requests)]))

/-- Serialize a `PodTemplateSpec`. -/
def serPodTemplateSpec (pt : PodTemplateSpec) : String :=
  jobj ((if pt.annotations = [] then [] else [("annotations", serStrMap pt.annotations)])
    ++ (if pt.labels = [] then [] else [("labels", serStrMap pt.labels)])
    ++ (if pt.node_selector = [] then [] else [("nodeSelector", serStrMap pt.node_selector)])
    ++ (if pt.tolerations = [] then []
        else [("tolerations", jarr (pt.tolerations.map serTolerationSpec))])
    ++ optField "affinity" Json.render pt.affinity
    ++ optField "resources" serResourceRequirementsSpec pt.resources
    ++ optField "image" jstr pt.image
    ++ optField "imageTag" jstr pt.image_tag
    ++ optField "imagePullPolicy" jstr pt.image_pull_policy
    ++ (if pt.image_pull_secrets = [] then []
        else [("imagePullSecrets", serStringList pt.image_pull_secrets)])
    ++ optField "serviceAccountName" jstr pt.service_account_name
    ++ optField "securityContext" Json.render pt.security_context)

/-- Serialize the full `KafkaPartitionRemapperSpec` to canonical JSON. -/
def specJson (s : KafkaPartitionRemapperSpec) : String :=
  jobj ([("replicas", jint s.replicas),
         ("listen", serListenSpec s.listen),
         ("kafka", serKafkaClusterSpec s.kafka),
         ("mapping", serMappingSpec s.mapping),
         ("metrics", serMetricsSpec s.metrics),
         ("logging", serLoggingSpec s.logging),
         ("service", serServiceSpec s.service)]
    ++ optField "podTemplate" serPodTemplateSpec s.pod_template
    ++ [("suspend", jbool s.suspend)])

/-! ## SHA-256 (the `sha2` crate's digest, FIPS 180-4) over byte lists,
and `calculate_config_hash` (src/reconcilers/remapper.rs). -/

/-- Truncate to a 32-bit word. -/
def w32 (n : Nat) : Nat := n % 4294967296

/-- Rotate a 32-bit word right by `k` (for `0 < k < 32`). -/
def rotr (x k : Nat) : Nat := x / 2 ^ k + x % 2 ^ k * 2 ^ (32 - k)

/-- SHA-256 `Ch` function. -/
def shaCh (x y z : Nat) : Nat := (x &&& y) ^^^ ((x ^^^ 4294967295) &&& z)

/-- SHA-256 `Maj` function. -/
def shaMaj (x y z : Nat) : Nat := (x &&& y) ^^^ (x &&& z) ^^^ (y &&& z)

/-- SHA-256 `Σ0`. -/
def bigSigma0 (x : Nat) : Nat := rotr x 2 ^^^ rotr x 13 ^^^ rotr x 22

/-- SHA-256 `Σ1`. -/
def bigSigma1 (x : Nat) : Nat := rotr x 6 ^^^ rotr x 11 ^^^ rotr x 25

/-- SHA-256 `σ0`. -/
def smallSigma0 (x : Nat) : Nat := rotr x 7 ^^^ rotr x 18 ^^^ x / 2 ^ 3

/-- SHA-256 `σ1`. -/
def smallSigma1 (x : Nat) : Nat := rotr x 17 ^^^ rotr x 19 ^^^ x / 2 ^ 10

/-- The 64 SHA-256 round constants (FIPS 180-4, in decimal). -/
def K256 : List Nat :=
  [1116352408, 1899447441, 3049323471, 3921009573, 961987163, 1508970993,
   2453635748, 2870763221, 3624381080, 310598401, 607225278, 1426881987,
   1925078388, 2162078206, 2614888103, 3248222580, 3835390401, 4022224774,
   264347078, 604807628, 770255983, 1249150122, 1555081692, 1996064986,
   2554220882, 2821834349, 2952996808, 3210313671, 3336571891, 3584528711,
   113926993, 338241895, 666307205, 773529912, 1294757372, 1396182291,
   1695183700, 1986661051, 2177026350, 2456956037, 2730485921, 2820302411,
   3259730800, 3345764771, 3516065817, 3600352804, 4094571909, 275423344,
   430227734, 506948616, 659060556, 883997877, 958139571, 1322822218,
   1537002063, 1747873779, 1955562222, 2024104815, 2227730452, 2361852424,
   2428436474, 2756734187, 3204031479, 3329325298]

/-- The eight 32-bit working variables / hash state of SHA-256. -/
structure Hash8 where
  a : Nat
  b : Nat
  c : Nat
  d : Nat
  e : Nat
  f : Nat
  g : Nat
  h : Nat
deriving Repr, DecidableEq

/-- SHA-256 initial hash value. -/
def initH : Hash8 :=
  ⟨0x6a09e667, 0xbb67ae85, 0x3c6ef372, 0xa54ff53a, 0x510e527f, 0x9b05688c, 0x1f83d9ab, 0x5be0cd19⟩

/-- Big-endian 8-byte rendering of a 64-bit value. -/
def lenBytes (n : Nat) : List Nat :=
  [n / 2 ^ 56 % 256, n / 2 ^ 48 % 256, n / 2 ^ 40 % 256, n / 2 ^ 32 % 256,
   n / 2 ^ 24 % 256, n / 2 ^ 16 % 256, n / 2 ^ 8 % 256, n % 256]

/-- SHA-256 padding: append `0x80`, zeros to 56 mod 64, then the bit length. -/
def padMessage (msg : List Nat) : List Nat :=
  let len := msg.length
  let zeros := (64 - (len + 9) % 64) % 64
  msg ++ [0x80] ++ List.replicate zeros 0 ++ lenBytes (8 * len)

/-- Split a byte list into 64-byte chunks. -/
def toChunks (l : List Nat) : List (List Nat) :=
  if h : l = [] then []
  else
    have : (l.drop 64).length < l.length := by
      have hp : 0 < l.length := List.length_pos.mpr h
      simp only [List.length_drop]
      omega
    l.take 64 :: toChunks (l.drop 64)
termination_by l.length

/-- Combine bytes into big-endian 32-bit words. -/
def bytesToWords : List Nat → List Nat
  | a :: b :: c :: d :: rest =>
    (a * 16777216 + b * 65536 + c * 256 + d) :: bytesToWords rest
  | _ => []

/-- Extend a message schedule by one word. -/
def stepW (w : List Nat) : List Nat :=
  let n := w.length
  w ++ [w32 (smallSigma1 (w.getD (n - 2) 0) + w.getD (n - 7) 0
             + smallSigma0 (w.getD (n - 15) 0) + w.getD (n - 16) 0)]

/-- One SHA-256 round, consuming a schedule word paired with its constant. -/
def shaRound (st : Hash8) (wk : Nat × Nat) : Hash8 :=
  let t1 := w32 (st.h + bigSigma1 st.e + shaCh st.e st.f st.g + wk.2 + wk.1)
  let t2 := w32 (bigSigma0 st.a + shaMaj st.a st.b st.c)
  ⟨w32 (t1 + t2), st.a, st.b, st.c, w32 (st.d + t1), st.e, st.f, st.g⟩

/-- Compress one 64-byte chunk into the hash state. -/
def compressChunk (hv : Hash8) (chunk : List Nat) : Hash8 :=
  let w := Nat.repeat stepW 48 (bytesToWords chunk)
  let st := (w.zip K256).foldl shaRound hv
  ⟨w32 (hv.a + st.a), w32 (hv.b + st.b), w32 (hv.c + st.c), w32 (hv.d + st.d),
   w32 (hv.e + st.e), w32 (hv.f + st.f), w32 (hv.g + st.g), w32 (hv.h + st.h)⟩

/-- Big-endian bytes of one 32-bit word. -/
def wordBytes (w : Nat) : List Nat :=
  [w / 2 ^ 24 % 256, w / 2 ^ 16 % 256, w / 2 ^ 8 % 256, w % 256]

/-- The 32 digest bytes of a final hash state. -/
def digestBytes (st : Hash8) : List Nat :=
  wordBytes st.a ++ wordBytes st.b ++ wordBytes st.c ++ wordBytes st.d
    ++ wordBytes st.e ++ wordBytes st.f ++ wordBytes st.g ++ wordBytes st.h

/-- SHA-256 of a byte list. -/
def sha256 (msg : List Nat) : List Nat :=
  digestBytes ((toChunks (padMessage msg)).foldl compressChunk initH)

/-- UTF-8 encoding of one character (Rust `str::as_bytes`). -/
def utf8EncodeCharM (c : Char) : List Nat :=
  let n := c.toNat
  if n < 128 then [n]
  else if n < 2048 then [192 + n / 64, 128 + n % 64]
  else if n < 65536 then [224 + n / 4096, 128 + n / 64 % 64, 128 + n % 64]
  else [240 + n / 262144, 128 + n / 4096 % 64, 128 + n / 64 % 64, 128 + n % 64]

/-- UTF-8 bytes of a string. -/
def utf8Bytes (s : String) : List Nat := s.data.flatMap utf8EncodeCharM

/-- Lowercase hexadecimal digit for a value below 16. -/
def hexChar (n : Nat) : Char :=
  match n with
  | 0 => '0' | 1 => '1' | 2 => '2' | 3 => '3' | 4 => '4' | 5 => '5' | 6 => '6' | 7 => '7'
  | 8 => '8' | 9 => '9' | 10 => 'a' | 11 => 'b' | 12 => 'c' | 13 => 'd' | 14 => 'e' | 15 => 'f'
  | _ => '0'

/-- The sixteen lowercase hexadecimal digits. -/
def hexDigits : List Char :=
  ['a', 'b', 'c', 'd', 'e', 'f', '0', '1', '2', '3', '4', '5', '6', '7', '8', '9']

/-- Two lowercase hex digits of one byte (Rust `{:x}` formatting per byte). -/
def byteHex (b : Nat) : List Char := [hexChar (b / 16), hexChar (b % 16)]

/-- Hex rendering of a byte list. -/
def hexChars (l : List Nat) : List Char := l.flatMap byteHex

/-- `calculate_config_hash`: serialize the spec, SHA-256 it, render as
lowercase hex, keep the first 16 characters. -/
def calculate_config_hash (remapper : KafkaPartitionRemapper) : String :=
  String.mk ((hexChars (sha256 (utf8Bytes (specJson remapper.spec)))).take 16)

/-! ## Concrete fixtures used by witnesses and counterexamples -/

/-- A listen block with the CRD defaults. -/
def baseListen : ListenSpec :=
  { port := 9092, advertised_address := none, max_connections := 1000, security := none }

/-- A PLAINTEXT Kafka block with the CRD defaults. -/
def baseKafka : KafkaClusterSpec :=
  { bootstrap_servers := ["kafka-broker:9092"], connection_timeout_ms := 10000,
    request_timeout_ms := 30000, metadata_refresh_interval_secs := 30,
    security_protocol := "PLAINTEXT", tls_secret := none, sasl_secret := none }

/-- A valid 1000-to-100 mapping with the default offset range (2^40). -/
def baseMapping : MappingSpec :=
  { virtual_partitions := 1000, physical_partitions := 100,
    offset_range := 1099511627776, topics := [] }

/-- Default metrics block. -/
def baseMetrics : MetricsSpec := { enabled := true, port := 9090 }

/-- Default logging block. -/
def baseLogging : LoggingSpec := { level := "info", json := false }

/-- Default ClusterIP service block. -/
def baseServiceCfg : ServiceSpec :=
  { type_ := "ClusterIP", annotations := [], load_balancer_ip := none,
    external_traffic_policy := none }

/-- A fully valid spec: 2 replicas, PLAINTEXT, not suspended. -/
def baseSpec : KafkaPartitionRemapperSpec :=
  { replicas := 2, listen := baseListen, kafka := baseKafka, mapping := baseMapping,
    metrics := baseMetrics, logging := baseLogging, service := baseServiceCfg,
    pod_template := none, suspend := false }

/-- Metadata of the fixture resource. -/
def baseMeta : ObjectMeta :=
  { name := some "kpr", namespace' := some "default", uid := some "uid-1",
    generation := some 1 }

/-- The fixture resource. -/
def baseRemapper : KafkaPartitionRemapper := { metadata := baseMeta, spec := baseSpec }

/-- The fixture with an indivisible 1001-to-100 mapping. -/
def divisibilityRemapper : KafkaPartitionRemapper :=
  { baseRemapper with
    spec := { baseSpec with mapping := { baseMapping with virtual_partitions := 1001 } } }

/-! ## C1: validator soundness, completeness and failure order -/

/-- The nine validation conditions, stated as the claim states them. -/
def specChecksHold (spec : KafkaPartitionRemapperSpec) : Prop :=
  spec.kafka.bootstrap_servers ≠ [] ∧
  1 ≤ spec.mapping.physical_partitions ∧
  spec.mapping.physical_partitions ≤ spec.mapping.virtual_partitions ∧
  spec.mapping.virtual_partitions % spec.mapping.physical_partitions = 0 ∧
  2 ^ 20 ≤ spec.mapping.offset_range ∧
  0 ≤ spec.replicas ∧
  spec.kafka.security_protocol ∈ ["PLAINTEXT", "SSL", "SASL_PLAINTEXT", "SASL_SSL"] ∧
  ((spec.kafka.security_protocol = "SSL" ∨ spec.kafka.security_protocol = "SASL_SSL") →
    spec.kafka.tls_secret ≠ none) ∧
  ((spec.kafka.security_protocol = "SASL_PLAINTEXT"
      ∨ spec.kafka.security_protocol = "SASL_SSL") →
    spec.kafka.sasl_secret ≠ none)

lemma validateSpec_ok_iff (spec : KafkaPartitionRemapperSpec) :
    validateSpec spec = .ok () ↔ specChecksHold spec := by
  unfold validateSpec specChecksHold
  split_ifs <;>
    first
      | exact iff_of_true rfl
          (by refine ⟨?_, ?_, ?_, ?_, ?_, ?_, ?_, ?_, ?_⟩ <;> first | omega | tauto)
      | (refine iff_of_false (by simp) ?_
         rintro ⟨c1, c2, c3, c4, c5, c6, c7, c8, c9⟩
         first | omega | tauto)

/-- C1: `validate` returns Ok exactly when all nine checks hold (bootstrap
servers non-empty, physicalPartitions ≥ 1, virtual ≥ physical, physical
divides virtual, offsetRange ≥ 2^20, replicas ≥ 0, recognized security
protocol, TLS secret present for SSL-family protocols, SASL secret present
for SASL-family protocols), and when several checks fail the returned
ValidationError is that of the first failing check in exactly this order. -/
theorem validate_checks_iff_and_first_failure_order (r : KafkaPartitionRemapper) :
    (validate r = .ok () ↔ specChecksHold r.spec) ∧
    (r.spec.kafka.bootstrap_servers = [] →
      validate r = .error (.ValidationError "kafka.bootstrapServers cannot be empty")) ∧
    (r.spec.kafka.bootstrap_servers ≠ [] →
      ¬ 1 ≤ r.spec.mapping.physical_partitions →
      validate r = .error (.ValidationError "mapping.physicalPartitions must be >= 1")) ∧
    (r.spec.kafka.bootstrap_servers ≠ [] →
      1 ≤ r.spec.mapping.physical_partitions →
      ¬ r.spec.mapping.physical_partitions ≤ r.spec.mapping.virtual_partitions →
      validate r = .error (.ValidationError
        "mapping.virtualPartitions must be >= mapping.physicalPartitions")) ∧
    (r.spec.kafka.bootstrap_servers ≠ [] →
      1 ≤ r.spec.mapping.physical_partitions →
      r.spec.mapping.physical_partitions ≤ r.spec.mapping.virtual_partitions →
      ¬ r.spec.mapping.virtual_partitions % r.spec.mapping.physical_partitions = 0 →
      validate r = .error (.ValidationError
        "mapping.virtualPartitions must be evenly divisible by mapping.physicalPartitions")) ∧
    (r.spec.kafka.bootstrap_servers ≠ [] →
      1 ≤ r.spec.mapping.physical_partitions →
      r.spec.mapping.physical_partitions ≤ r.spec.mapping.virtual_partitions →
      r.spec.mapping.virtual_partitions % r.spec.mapping.physical_partitions = 0 →
      ¬ 2 ^ 20 ≤ r.spec.mapping.offset_range →
      validate r = .error (.ValidationError "mapping.offsetRange must be >= 1048576 (2^20)")) ∧
    (r.spec.kafka.bootstrap_servers ≠ [] →
      1 ≤ r.spec.mapping.physical_partitions →
      r.spec.mapping.physical_partitions ≤ r.spec.mapping.virtual_partitions →
      r.spec.mapping.virtual_partitions % r.spec.mapping.physical_partitions = 0 →
      2 ^ 20 ≤ r.spec.mapping.offset_range →
      ¬ 0 ≤ r.spec.replicas →
      validate r = .error (.ValidationError "replicas must be >= 0")) ∧
    (r.spec.kafka.bootstrap_servers ≠ [] →
      1 ≤ r.spec.mapping.physical_partitions →
      r.spec.mapping.physical_partitions ≤ r.spec.mapping.virtual_partitions →
      r.spec.mapping.virtual_partitions % r.spec.mapping.physical_partitions = 0 →
      2 ^ 20 ≤ r.spec.mapping.offset_range →
      0 ≤ r.spec.replicas →
      ¬ r.spec.kafka.security_protocol ∈ ["PLAINTEXT", "SSL", "SASL_PLAINTEXT", "SASL_SSL"] →
      validate r = .error (.ValidationError
        "kafka.securityProtocol must be one of: [\"PLAINTEXT\", \"SSL\", \"SASL_PLAINTEXT\", \"SASL_SSL\"]")) ∧
    (r.spec.kafka.bootstrap_servers ≠ [] →
      1 ≤ r.spec.mapping.physical_partitions →
      r.spec.mapping.physical_partitions ≤ r.spec.mapping.virtual_partitions →
      r.spec.mapping.virtual_partitions % r.spec.mapping.physical_partitions = 0 →
      2 ^ 20 ≤ r.spec.mapping.offset_range →
      0 ≤ r.spec.replicas →
      r.spec.kafka.security_protocol ∈ ["PLAINTEXT", "SSL", "SASL_PLAINTEXT", "SASL_SSL"] →
      (r.spec.kafka.security_protocol = "SSL" ∨ r.spec.kafka.security_protocol = "SASL_SSL") →
      r.spec.kafka.tls_secret = none →
      validate r = .error (.ValidationError
        "kafka.tlsSecret is required when using SSL or SASL_SSL protocol")) ∧
    (r.spec.kafka.bootstrap_servers ≠ [] →
      1 ≤ r.spec.mapping.physical_partitions →
      r.spec.mapping.physical_partitions ≤ r.spec.mapping.virtual_partitions →
      r.spec.mapping.virtual_partitions % r.spec.mapping.physical_partitions = 0 →
      2 ^ 20 ≤ r.spec.mapping.offset_range →
      0 ≤ r.spec.replicas →
      r.spec.kafka.security_protocol ∈ ["PLAINTEXT", "SSL", "SASL_PLAINTEXT", "SASL_SSL"] →
      ((r.spec.kafka.security_protocol = "SSL" ∨ r.spec.kafka.security_protocol = "SASL_SSL") →
        r.spec.kafka.tls_secret ≠ none) →
      (r.spec.kafka.security_protocol = "SASL_PLAINTEXT"
        ∨ r.spec.kafka.security_protocol = "SASL_SSL") →
      r.spec.kafka.sasl_secret = none →
      validate r = .error (.ValidationError
        "kafka.saslSecret is required when using SASL_PLAINTEXT or SASL_SSL protocol")) := by
  refine ⟨validateSpec_ok_iff r.spec, ?_, ?_, ?_, ?_, ?_, ?_, ?_, ?_, ?_⟩
  · intro h1
    unfold validate validateSpec
    rw [if_pos h1]
  · intro h1 h2
    unfold validate validateSpec
    rw [if_neg h1, if_pos (show r.spec.mapping.physical_partitions = 0 by omega)]
  · intro h1 h2 h3
    unfold validate validateSpec
    rw [if_neg h1, if_neg (by omega : ¬ r.spec.mapping.physical_partitions = 0),
        if_pos (show r.spec.mapping.virtual_partitions < r.spec.mapping.physical_partitions
          by omega)]
  · intro h1 h2 h3 h4
    unfold validate validateSpec
    rw [if_neg h1, if_neg (by omega : ¬ r.spec.mapping.physical_partitions = 0),
        if_neg (by omega :
          ¬ r.spec.mapping.virtual_partitions < r.spec.mapping.physical_partitions),
        if_pos h4]
  · intro h1 h2 h3 h4 h5
    unfold validate validateSpec
    rw [if_neg h1, if_neg (by omega : ¬ r.spec.mapping.physical_partitions = 0),
        if_neg (by omega :
          ¬ r.spec.mapping.virtual_partitions < r.spec.mapping.physical_partitions),
        if_neg (not_not_intro h4),
        if_pos (show r.spec.mapping.offset_range < 1048576 by omega)]
  · intro h1 h2 h3 h4 h5 h6
    unfold validate validateSpec
    rw [if_neg h1, if_neg (by omega : ¬ r.spec.mapping.physical_partitions = 0),
        if_neg (by omega :
          ¬ r.spec.mapping.virtual_partitions < r.spec.mapping.physical_partitions),
        if_neg (not_not_intro h4),
        if_neg (by omega : ¬ r.spec.mapping.offset_range < 1048576),
        if_pos (show r.spec.replicas < 0 by omega)]
  · intro h1 h2 h3 h4 h5 h6 h7
    unfold validate validateSpec
    rw [if_neg h1, if_neg (by omega : ¬ r.spec.mapping.physical_partitions = 0),
        if_neg (by omega :
          ¬ r.spec.mapping.virtual_partitions < r.spec.mapping.physical_partitions),
        if_neg (not_not_intro h4),
        if_neg (by omega : ¬ r.spec.mapping.offset_range < 1048576),
        if_neg (by omega : ¬ r.spec.replicas < 0),
        if_pos h7]
  · intro h1 h2 h3 h4 h5 h6 h7 h8a h8b
    unfold validate validateSpec
    rw [if_neg h1, if_neg (by omega : ¬ r.spec.mapping.physical_partitions = 0),
        if_neg (by omega :
          ¬ r.spec.mapping.virtual_partitions < r.spec.mapping.physical_partitions),
        if_neg (not_not_intro h4),
        if_neg (by omega : ¬ r.spec.mapping.offset_range < 1048576),
        if_neg (by omega : ¬ r.spec.replicas < 0),
        if_neg (not_not_intro h7),
        if_pos ⟨h8a, h8b⟩]
  · intro h1 h2 h3 h4 h5 h6 h7 h8 h9a h9b
    unfold validate validateSpec
    rw [if_neg h1, if_neg (by omega : ¬ r.spec.mapping.physical_partitions = 0),
        if_neg (by omega :
          ¬ r.spec.mapping.virtual_partitions < r.spec.mapping.physical_partitions),
        if_neg (not_not_intro h4),
        if_neg (by omega : ¬ r.spec.mapping.offset_range < 1048576),
        if_neg (by omega : ¬ r.spec.replicas < 0),
        if_neg (not_not_intro h7),
        if_neg (fun hc => h8 hc.1 hc.2),
        if_pos ⟨h9a, h9b⟩]

/-- Witness for C1: the fixture spec passes every check and validates Ok,
while the 1001-to-100 fixture fails exactly the divisibility check. -/
theorem validate_checks_iff_and_first_failure_order_witness :
    validate baseRemapper = Except.ok () ∧
    validate divisibilityRemapper = Except.error (Error.ValidationError
      "mapping.virtualPartitions must be evenly divisible by mapping.physicalPartitions") :=
  ⟨(validate_checks_iff_and_first_failure_order baseRemapper).1.mpr
      (by unfold specChecksHold; decide),
   (validate_checks_iff_and_first_failure_order divisibilityRemapper).2.2.2.2.1
      (by decide) (by decide) (by decide) (by decide)⟩

/-! ## C2 / C3: phase derivation -/

/-- C2: the phase follows the priority order suspend ⇒ Suspended, then
readyReplicas = spec.replicas ⇒ Running, then readyReplicas > 0 ⇒ Degraded,
otherwise Pending. -/
theorem statusPhase_priority_order (spec : KafkaPartitionRemapperSpec) (ready : Int) :
    (spec.suspend = true → statusPhase spec ready = "Suspended") ∧
    (spec.suspend = false → ready = spec.replicas → statusPhase spec ready = "Running") ∧
    (spec.suspend = false → ready ≠ spec.replicas → 0 < ready →
      statusPhase spec ready = "Degraded") ∧
    (spec.suspend = false → ready ≠ spec.replicas → ¬ 0 < ready →
      statusPhase spec ready = "Pending") := by
  unfold statusPhase
  refine ⟨?_, ?_, ?_, ?_⟩ <;> intros <;> split_ifs <;> first | rfl | omega | simp_all

/-- Witness for C2: all four phases realized on concrete inputs. -/
theorem statusPhase_priority_order_witness :
    baseSpec.suspend = false ∧
    statusPhase { baseSpec with suspend := true } 0 = "Suspended" ∧
    statusPhase baseSpec 2 = "Running" ∧
    statusPhase baseSpec 1 = "Degraded" ∧
    statusPhase baseSpec 0 = "Pending" :=
  ⟨rfl,
   (statusPhase_priority_order { baseSpec with suspend := true } 0).1 rfl,
   (statusPhase_priority_order baseSpec 2).2.1 rfl (by decide),
   (statusPhase_priority_order baseSpec 1).2.2.1 rfl (by decide) (by decide),
   (statusPhase_priority_order baseSpec 0).2.2.2 rfl (by decide) (by decide)⟩

/-- The fixture spec with `replicas = 0` (and `suspend = false`). -/
def zeroReplicasSpec : KafkaPartitionRemapperSpec := { baseSpec with replicas := 0 }

/-- Counterexample to C3: a non-suspended spec with `replicas = 0` and
`readyReplicas = 0` is phased `Running` (the equality check runs first),
not `Pending` as the claim states for all specs including `replicas = 0`. -/
theorem statusPhase_ready_zero_counterexample :
    zeroReplicasSpec.suspend = false ∧
    statusPhase zeroReplicasSpec 0 = "Running" ∧
    ¬ statusPhase zeroReplicasSpec 0 = "Pending" := by
  refine ⟨rfl, rfl, by decide⟩

/-- C3 (amended): for a non-suspended spec with observed readyReplicas 0,
the phase is Pending unless `spec.replicas = 0`, in which case the earlier
`readyReplicas == spec.replicas` check makes it Running. -/
theorem statusPhase_ready_zero_amended (spec : KafkaPartitionRemapperSpec) (ready : Int)
    (hs : spec.suspend = false) (hr : ready = 0) :
    statusPhase spec ready = (if spec.replicas = 0 then "Running" else "Pending") := by
  subst hr
  unfold statusPhase
  split_ifs <;> first | rfl | omega | simp_all

/-- Witness for amended C3 at the fixture spec (replicas = 2, ready = 0). -/
theorem statusPhase_ready_zero_amended_witness :
    baseSpec.suspend = false ∧
    statusPhase baseSpec 0 = (if baseSpec.replicas = 0 then "Running" else "Pending") :=
  ⟨rfl, statusPhase_ready_zero_amended baseSpec 0 rfl rfl⟩

/-! ## C5: compression ratio -/

/-- C5: for any spec that passes validation, `update_status` writes
`compression_ratio = virtualPartitions / physicalPartitions`, an exact
integer division (physical ≥ 1 divides virtual), recomputed from the spec
alone for any observed ready count. -/
theorem update_status_compression_ratio_exact (r : KafkaPartitionRemapper)
    (h : validate r = .ok ()) (ready : Int) :
    (update_status_fields r.spec ready).compression_ratio
        = r.spec.mapping.virtual_partitions / r.spec.mapping.physical_partitions ∧
    r.spec.mapping.physical_partitions
        * (update_status_fields r.spec ready).compression_ratio
        = r.spec.mapping.virtual_partitions ∧
    1 ≤ r.spec.mapping.physical_partitions := by
  unfold validate at h
  obtain ⟨-, c2, -, c4, -⟩ := (validateSpec_ok_iff r.spec).mp h
  refine ⟨rfl, ?_, c2⟩
  exact Nat.mul_div_cancel' (Nat.dvd_of_mod_eq_zero c4)

/-- Witness for C5: the valid 1000-to-100 fixture gets ratio 10. -/
theorem update_status_compression_ratio_exact_witness :
    validate baseRemapper = Except.ok () ∧
    (update_status_fields baseSpec 2).compression_ratio = 10 :=
  ⟨rfl, ((update_status_compression_ratio_exact baseRemapper rfl 2).1).trans (by decide)⟩

/-! ## C4: Deployment replicas under suspend -/

/-- C4: `build_deployment` always emits a Deployment spec (suspend never
removes it), whose desired replicas are 0 when `suspend` is set and the
declared replica count otherwise. -/
theorem build_deployment_replicas_suspend (r : KafkaPartitionRemapper)
    (config_map_name config_hash : String) :
    (build_deployment r config_map_name config_hash).spec.isSome = true ∧
    ((build_deployment r config_map_name config_hash).spec.map fun ds => ds.replicas)
      = some (some (if r.spec.suspend = true then 0 else r.spec.replicas)) :=
  ⟨rfl, rfl⟩

/-! ## C6 / C10: service endpoint resolution -/

/-- C6: for an observed Service with name, namespace and spec present:
LoadBalancer type resolves to the first ingress entry's `ip:port`, else its
`hostname:port`, else the cluster-internal DNS name when no ingress is
provisioned; NodePort and ClusterIP types always resolve to the
cluster-internal DNS name. -/
theorem get_service_endpoint_by_type (service : K8sService)
    (spec : KafkaPartitionRemapperSpec) (n ns : String) (ssp : K8sServiceSpec)
    (hname : service.metadata.name = some n)
    (hns : service.metadata.namespace' = some ns)
    (hspec : service.spec = some ssp) :
    (ssp.type_ = some "LoadBalancer" →
      (∀ ing ip, firstIngress service = some ing → ing.ip = some ip →
        get_service_endpoint service spec = some (ip ++ ":" ++ toString spec.listen.port)) ∧
      (∀ ing hn, firstIngress service = some ing → ing.ip = none → ing.hostname = some hn →
        get_service_endpoint service spec = some (hn ++ ":" ++ toString spec.listen.port)) ∧
      (firstIngress service = none →
        get_service_endpoint service spec = some (clusterDns n ns spec.listen.port))) ∧
    (ssp.type_ = some "NodePort" →
      get_service_endpoint service spec = some (clusterDns n ns spec.listen.port)) ∧
    (ssp.type_ = some "ClusterIP" →
      get_service_endpoint service spec = some (clusterDns n ns spec.listen.port)) := by
  unfold get_service_endpoint
  rw [hname, hns, hspec]
  dsimp only
  refine ⟨?_, ?_, ?_⟩
  · intro ht
    rw [ht]
    refine ⟨?_, ?_, ?_⟩
    · intro ing ip hfi hip
      rcases hst : service.status with - | st
      · simp [firstIngress, hst] at hfi
      rcases hlb : st.load_balancer with - | lb
      · simp [firstIngress, hst, hlb] at hfi
      rcases hing : lb.ingress with - | ingl
      · simp [firstIngress, hst, hlb, hing] at hfi
      have hfi' : ingl.head? = some ing := by
        simpa [firstIngress, hst, hlb, hing] using hfi
      simp [hst, hlb, hing, hfi', hip]
    · intro ing hn hfi hip hhost
      rcases hst : service.status with - | st
      · simp [firstIngress, hst] at hfi
      rcases hlb : st.load_balancer with - | lb
      · simp [firstIngress, hst, hlb] at hfi
      rcases hing : lb.ingress with - | ingl
      · simp [firstIngress, hst, hlb, hing] at hfi
      have hfi' : ingl.head? = some ing := by
        simpa [firstIngress, hst, hlb, hing] using hfi
      simp [hst, hlb, hing, hfi', hip, hhost]
    · intro hfi
      rcases hst : service.status with - | st
      · simp [hst]
      rcases hlb : st.load_balancer with - | lb
      · simp [hst, hlb]
      rcases hing : lb.ingress with - | ingl
      · simp [hst, hlb, hing]
      have hfi' : ingl.head? = none := by
        simpa [firstIngress, hst, hlb, hing] using hfi
      simp [hst, hlb, hing, hfi']
  · intro ht
    rw [ht]
    simp
  · intro ht
    rw [ht]
    simp

/-- A LoadBalancer-typed observed service spec. -/
def lbServiceSpec : K8sServiceSpec := { type_ := some "LoadBalancer" }

/-- Observed metadata of the fixture Service. -/
def lbMeta : K8sObjectMeta :=
  { name := some "kpr", namespace' := some "default", labels := none, annotations := none }

/-- An ingress entry carrying an IP. -/
def lbIngressEntry : LoadBalancerIngress := { ip := some "203.0.113.7", hostname := none }

/-- A LoadBalancer Service whose first ingress entry has an IP. -/
def lbServiceWithIp : K8sService :=
  { metadata := lbMeta, spec := some lbServiceSpec,
    status := some { load_balancer := some { ingress := some [lbIngressEntry] } } }

/-- A LoadBalancer Service with no status yet. -/
def lbServicePending : K8sService :=
  { metadata := lbMeta, spec := some lbServiceSpec, status := none }

/-- Witness for C6: a LoadBalancer with an ingress IP resolves to `ip:port`;
one with no status yet falls back to the cluster-internal DNS name. -/
theorem get_service_endpoint_by_type_witness :
    get_service_endpoint lbServiceWithIp baseSpec
      = some ("203.0.113.7" ++ ":" ++ toString baseSpec.listen.port) ∧
    get_service_endpoint lbServicePending baseSpec
      = some (clusterDns "kpr" "default" baseSpec.listen.port) :=
  ⟨((get_service_endpoint_by_type lbServiceWithIp baseSpec "kpr" "default" lbServiceSpec
      rfl rfl rfl).1 rfl).1 lbIngressEntry "203.0.113.7" rfl rfl,
   ((get_service_endpoint_by_type lbServicePending baseSpec "kpr" "default" lbServiceSpec
      rfl rfl rfl).1 rfl).2.2 rfl⟩

/-- C10: a Service missing its metadata name, metadata namespace or spec
resolves to `none` (the status field is omitted, not fabricated); a missing
or unrecognized service type is treated as ClusterIP and resolves to the
cluster-internal DNS name. -/
theorem get_service_endpoint_missing_fields (service : K8sService)
    (spec : KafkaPartitionRemapperSpec) :
    (service.metadata.name = none → get_service_endpoint service spec = none) ∧
    (service.metadata.namespace' = none → get_service_endpoint service spec = none) ∧
    (service.spec = none → get_service_endpoint service spec = none) ∧
    (∀ n ns ssp, service.metadata.name = some n →
      service.metadata.namespace' = some ns → service.spec = some ssp →
      (ssp.type_ = none →
        get_service_endpoint service spec = some (clusterDns n ns spec.listen.port)) ∧
      (∀ t, ssp.type_ = some t → t ≠ "LoadBalancer" → t ≠ "NodePort" → t ≠ "ClusterIP" →
        get_service_endpoint service spec = some (clusterDns n ns spec.listen.port))) := by
  refine ⟨?_, ?_, ?_, ?_⟩
  · intro h
    simp [get_service_endpoint, h]
  · intro h
    rcases hn : service.metadata.name with - | n <;>
      simp [get_service_endpoint, hn, h]
  · intro h
    rcases hn : service.metadata.name with - | n <;>
      rcases hns : service.metadata.namespace' with - | ns <;>
        simp [get_service_endpoint, hn, hns, h]
  · intro n ns ssp hn hns hs
    constructor
    · intro ht
      simp [get_service_endpoint, hn, hns, hs, ht]
    · intro t ht hne1 hne2 hne3
      simp [get_service_endpoint, hn, hns, hs, ht, hne1, hne2]

/-- A Service missing its metadata name. -/
def unnamedService : K8sService :=
  { metadata := { name := none, namespace' := some "default", labels := none,
                  annotations := none },
    spec := some lbServiceSpec, status := none }

/-- A Service with the unrecognized type `ExternalName`. -/
def externalNameService : K8sService :=
  { metadata := lbMeta, spec := some { type_ := some "ExternalName" }, status := none }

/-- Witness for C10: a nameless Service yields none; an `ExternalName`
Service resolves to the cluster-internal DNS name. -/
theorem get_service_endpoint_missing_fields_witness :
    get_service_endpoint unnamedService baseSpec = none ∧
    get_service_endpoint externalNameService baseSpec
      = some (clusterDns "kpr" "default" baseSpec.listen.port) :=
  ⟨(get_service_endpoint_missing_fields unnamedService baseSpec).1 rfl,
   ((get_service_endpoint_missing_fields externalNameService baseSpec).2.2.2
      "kpr" "default" { type_ := some "ExternalName" } rfl rfl rfl).2
      "ExternalName" rfl (by decide) (by decide) (by decide)⟩

lemma lookupAnn_insertAnn_self (m : List (String × String)) (k v : String) :
    lookupAnn (insertAnn m k v) k = some v := by
  induction m with
  | nil => simp [insertAnn, lookupAnn]
  | cons hd tl ih =>
    obtain ⟨k', v'⟩ := hd
    by_cases h : k' = k <;> simp [insertAnn, lookupAnn, h, ih]

lemma lookupAnn_insertAnn_ne (m : List (String × String)) (k v k' : String)
    (h : k' ≠ k) : lookupAnn (insertAnn m k v) k' = lookupAnn m k' := by
  induction m with
  | nil => simp [insertAnn, lookupAnn, Ne.symm h]
  | cons hd tl ih =>
    obtain ⟨k0, v0⟩ := hd
    by_cases h0 : k0 = k
    · subst h0
      simp [insertAnn, lookupAnn, Ne.symm h]
    · by_cases h1 : k0 = k'
      · subst h1
        simp [insertAnn, lookupAnn, h0, h]
      · simp [insertAnn, lookupAnn, h0, h1, ih]

lemma lookupAnn_foldl_insertAnn_not_mem (l : List (String × String))
    (m : List (String × String)) (k : String) (h : k ∉ l.map Prod.fst) :
    lookupAnn (l.foldl (fun acc kv => insertAnn acc kv.1 kv.2) m) k = lookupAnn m k := by
  induction l generalizing m with
  | nil => rfl
  | cons hd tl ih =>
    simp only [List.map_cons, List.mem_cons, not_or] at h
    rw [List.foldl_cons, ih _ h.2, lookupAnn_insertAnn_ne _ _ _ _ h.1]

lemma lookupAnn_foldl_insertAnn_mem (l : List (String × String))
    (m : List (String × String)) (k v : String)
    (hnd : (l.map Prod.fst).Nodup) (hmem : (k, v) ∈ l) :
    lookupAnn (l.foldl (fun acc kv => insertAnn acc kv.1 kv.2) m) k = some v := by
  induction l generalizing m with
  | nil => simp at hmem
  | cons hd tl ih =>
    simp only [List.map_cons, List.nodup_cons] at hnd
    rcases List.mem_cons.mp hmem with heq | htl
    · subst heq
      rw [List.foldl_cons,
          lookupAnn_foldl_insertAnn_not_mem _ _ _ hnd.1,
          lookupAnn_insertAnn_self]
    · exact List.foldl_cons _ _ ▸ ih _ hnd.2 htl

lemma lookupAnn_eq_none_iff (m : List (String × String)) (k : String) :
    lookupAnn m k = none ↔ k ∉ m.map Prod.fst := by
  induction m with
  | nil => simp [lookupAnn]
  | cons hd tl ih =>
    obtain ⟨k', v'⟩ := hd
    by_cases h : k' = k
    · subst h
      simp [lookupAnn]
    · simp only [lookupAnn, if_neg h, List.map_cons, List.mem_cons, not_or, ih]
      exact ⟨fun hn => ⟨fun he => h he.symm, hn⟩, fun hc => hc.2⟩

/-! ## C7: pod-template annotations of the built Deployment -/

/-- The pod-template annotations of a built Deployment, when present. -/
def deploymentPodAnnotations (d : K8sDeployment) : Option (List (String × String)) :=
  (d.spec.bind fun s => s.template.metadata).bind fun m => m.annotations

/-- The pod-template annotations `build_deployment` emits (always present). -/
def builtPodAnnotations (r : KafkaPartitionRemapper) (cm fp : String) :
    List (String × String) :=
  (deploymentPodAnnotations (build_deployment r cm fp)).getD []

/-- The user-supplied pod-template annotations of a spec ([] when unset). -/
def userPodAnnotations (s : KafkaPartitionRemapperSpec) : List (String × String) :=
  match s.pod_template with
  | some pt => pt.annotations
  | none => []

/-- A pod template whose user annotations pin `checksum/config`. -/
def pinnedPodTemplate : PodTemplateSpec :=
  { annotations := [("checksum/config", "user-pinned")], labels := [], node_selector := [],
    tolerations := [], affinity := none, resources := none, image := none, image_tag := none,
    image_pull_policy := none, image_pull_secrets := [], service_account_name := none,
    security_context := none }

/-- The fixture resource carrying the pinned `checksum/config` annotation. -/
def pinnedAnnRemapper : KafkaPartitionRemapper :=
  { baseRemapper with spec := { baseSpec with pod_template := some pinnedPodTemplate } }

/-- Counterexample to C7: a user-supplied `checksum/config` pod annotation
overrides the fingerprint (user values are inserted after the base map), so
the built annotations do not carry the fingerprint under that key. -/
theorem build_deployment_checksum_override_counterexample :
    lookupAnn (builtPodAnnotations pinnedAnnRemapper "kpr-config" "abcdef0123456789")
      "checksum/config" = some "user-pinned" ∧
    ¬ lookupAnn (builtPodAnnotations pinnedAnnRemapper "kpr-config" "abcdef0123456789")
      "checksum/config" = some "abcdef0123456789" :=
  ⟨rfl, by decide⟩

/-- C7 (amended): every user-supplied pod annotation survives into the
built pod template with its user value (user values win on conflict), and
`checksum/config` carries the fingerprint whenever the user did not supply
their own `checksum/config` annotation. -/
theorem build_deployment_pod_annotations_merge (r : KafkaPartitionRemapper)
    (cm fp : String) (hnd : ((userPodAnnotations r.spec).map Prod.fst).Nodup) :
    (∀ k v, (k, v) ∈ userPodAnnotations r.spec →
      lookupAnn (builtPodAnnotations r cm fp) k = some v) ∧
    (lookupAnn (userPodAnnotations r.spec) "checksum/config" = none →
      lookupAnn (builtPodAnnotations r cm fp) "checksum/config" = some fp) := by
  cases hpt : r.spec.pod_template with
  | none =>
    constructor
    · intro k v hmem
      simp [userPodAnnotations, hpt] at hmem
    · intro _
      simp [builtPodAnnotations, deploymentPodAnnotations, build_deployment, hpt,
            insertAnn, lookupAnn]
  | some pt =>
    have hb : builtPodAnnotations r cm fp
        = pt.annotations.foldl (fun acc kv => insertAnn acc kv.1 kv.2)
            (insertAnn [] "checksum/config" fp) := by
      simp [builtPodAnnotations, deploymentPodAnnotations, build_deployment, hpt]
    constructor
    · intro k v hmem
      rw [hb]
      exact lookupAnn_foldl_insertAnn_mem _ _ _ _
        (by simpa [userPodAnnotations, hpt] using hnd)
        (by simpa [userPodAnnotations, hpt] using hmem)
    · intro hnone
      rw [hb, lookupAnn_foldl_insertAnn_not_mem _ _ _
            ((lookupAnn_eq_none_iff _ _).mp
              (by simpa [userPodAnnotations, hpt] using hnone)),
          lookupAnn_insertAnn_self]

/-- A pod template with one non-conflicting user annotation. -/
def customAnnPodTemplate : PodTemplateSpec :=
  { pinnedPodTemplate with annotations := [("custom/ann", "x")] }

/-- The fixture resource with the non-conflicting user annotation. -/
def customAnnRemapper : KafkaPartitionRemapper :=
  { baseRemapper with spec := { baseSpec with pod_template := some customAnnPodTemplate } }

/-- Witness for amended C7: a user annotation and the fingerprint coexist. -/
theorem build_deployment_pod_annotations_merge_witness :
    lookupAnn (builtPodAnnotations customAnnRemapper "kpr-config" "fp0123456789abcd")
      "custom/ann" = some "x" ∧
    lookupAnn (builtPodAnnotations customAnnRemapper "kpr-config" "fp0123456789abcd")
      "checksum/config" = some "fp0123456789abcd" :=
  ⟨(build_deployment_pod_annotations_merge customAnnRemapper "kpr-config" "fp0123456789abcd"
      (by decide)).1 "custom/ann" "x" (by decide),
   (build_deployment_pod_annotations_merge customAnnRemapper "kpr-config" "fp0123456789abcd"
      (by decide)).2 (by decide)⟩

/-! ## C8: fingerprint shape and determinism -/

lemma digestBytes_length (st : Hash8) : (digestBytes st).length = 32 := by
  simp [digestBytes, wordBytes]

lemma sha256_length (msg : List Nat) : (sha256 msg).length = 32 :=
  digestBytes_length _

lemma hexChars_length (l : List Nat) : (hexChars l).length = 2 * l.length := by
  induction l with
  | nil => rfl
  | cons hd tl ih =>
    simp [hexChars, byteHex] at ih ⊢
    omega

lemma hexChar_mem_hexDigits (n : Nat) : hexChar n ∈ hexDigits := by
  unfold hexChar
  split <;> decide

lemma mem_hexChars (l : List Nat) (c : Char) (h : c ∈ hexChars l) : c ∈ hexDigits := by
  rcases List.mem_flatMap.mp h with ⟨b, -, hc⟩
  simp only [byteHex, List.mem_cons, List.not_mem_nil, or_false] at hc
  rcases hc with rfl | rfl <;> exact hexChar_mem_hexDigits _

/-- C8: the config fingerprint is always exactly 16 lowercase hexadecimal
characters, and resources with equal specs get identical fingerprints (the
canonical serialization and digest are deterministic functions). -/
theorem calculate_config_hash_hex16_deterministic :
    (∀ r : KafkaPartitionRemapper,
      (calculate_config_hash r).data.length = 16 ∧
      ∀ c ∈ (calculate_config_hash r).data, c ∈ hexDigits) ∧
    (∀ r1 r2 : KafkaPartitionRemapper, r1.spec = r2.spec →
      calculate_config_hash r1 = calculate_config_hash r2) := by
  constructor
  · intro r
    constructor
    · show (List.take 16 (hexChars (sha256 (utf8Bytes (specJson r.spec))))).length = 16
      rw [List.length_take, hexChars_length, sha256_length]
      omega
    · intro c hc
      have hc' : c ∈ hexChars (sha256 (utf8Bytes (specJson r.spec))) :=
        List.mem_of_mem_take hc
      exact mem_hexChars _ _ hc'
  · intro r1 r2 h
    unfold calculate_config_hash
    rw [h]

/-- The fixture resource with different metadata but the same spec. -/
def altMetaRemapper : KafkaPartitionRemapper :=
  { baseRemapper with
    metadata := { baseMeta with name := some "kpr-copy", uid := some "uid-2" } }

/-- Witness for C8: equal specs under different metadata hash identically. -/
theorem calculate_config_hash_hex16_deterministic_witness :
    baseRemapper.spec = altMetaRemapper.spec ∧
    calculate_config_hash baseRemapper = calculate_config_hash altMetaRemapper :=
  ⟨rfl, calculate_config_hash_hex16_deterministic.2 baseRemapper altMetaRemapper rfl⟩

/-! ## C9: error policy -/

/-- C9: `error_policy` is a pure total mapping: KubeError requeues in 30s,
ValidationError and ConfigError in 300s, and every other kind (SecretError,
FinalizerError) in 60s. -/
theorem error_policy_requeue_delays :
    (∀ msg, error_policy (Error.KubeError msg) = 30) ∧
    (∀ msg, error_policy (Error.ValidationError msg) = 300) ∧
    (∀ msg, error_policy (Error.ConfigError msg) = 300) ∧
    (∀ msg, error_policy (Error.SecretError msg) = 60) ∧
    (∀ inner, error_policy (Error.FinalizerError inner) = 60) :=
  ⟨fun _ => rfl, fun _ => rfl, fun _ => rfl, fun _ => rfl, fun _ => rfl⟩
